import Mathlib

/-!
Verification development for the CNTK v2 learner core
(Source/CNTKv2LibraryDll/Learner.cpp).

The file shallowly embeds the learner data model and its operations:
schedules, the base learner update orchestration (LearnerBase::Update),
checkpoint create and restore, smoothed-gradient reset, mid-training
schedule replacement (Learner::ResetLearningRate), the universal learner
(LearnerUniversal) and its input validation, and gradient clipping
(LearnerBase::ClipGradient).

Tensor element values are modelled exactly as rationals; the gradient
clipping model, which needs a Euclidean norm, uses real numbers.  The
dense matrix backend, the TrainingParameterSchedule class and the
checkpoint dictionary plumbing live outside the single translated source
file; definitions for those parts are modelled from the specification and
say so in their doc comments.  Virtual per-parameter update kernels are
external backend calls and are embedded as opaque function fields of the
learner state, exactly mirroring the dynamic dispatch in the source.
-/

/-- Element type tag of a tensor (DataType::Float or DataType::Double in the
source).  Values themselves are modelled as exact rationals, so bit-for-bit
equality of checkpointed state becomes equality in the model. -/
inductive DType where
  | float
  | double
deriving DecidableEq

/-- A dense tensor: element type tag, shape, and flattened data. -/
structure Tensor where
  dtype : DType
  shape : List Nat
  data : List ℚ
deriving DecidableEq

/-- Modelled from the spec: Matrix::SetValue(0) zeroes the tensor contents in
place, keeping element type and shape. -/
def Tensor.setZero (t : Tensor) : Tensor :=
  { t with data := t.data.map (fun _ => 0) }

/-- A schedule entry value: a nominal rate together with the reference
minibatch size used to convert it to an effective per-sample rate. -/
structure Rate where
  value : ℚ
  refMBSize : Nat
deriving DecidableEq

/-- Modelled from the spec: a TrainingParameterSchedule is an ordered mapping
from elapsed-unit count to a rate, with a unit kind (per-sample when
sweepBased is false, per-sweep when true).  The epoch-size field of the
source class is represented by its IsSweepBased test. -/
structure Schedule where
  entries : List (Nat × Rate)
  sweepBased : Bool
deriving DecidableEq

/-- The entry with the greatest key at most t, scanning the whole entry list
(order independent). -/
def bestEntryAtMost (t : Nat) : List (Nat × Rate) → Option (Nat × Rate)
  | [] => none
  | (k, r) :: rest =>
    match bestEntryAtMost t rest with
    | none => if k ≤ t then some (k, r) else none
    | some (k2, r2) => if k ≤ t && k2 < k then some (k, r) else some (k2, r2)

/-- The entry with the least key. -/
def minKeyEntry : List (Nat × Rate) → Option (Nat × Rate)
  | [] => none
  | (k, r) :: rest =>
    match minKeyEntry rest with
    | none => some (k, r)
    | some (k2, r2) => if k ≤ k2 then some (k, r) else some (k2, r2)

/-- Modelled from the spec: schedule lookup returns the value associated with
the greatest key at most the current elapsed-unit count; for a time before
the first defined key it returns the earliest defined value.  An empty
schedule (which the source asserts against) yields a zero rate. -/
def Schedule.valueAt (s : Schedule) (t : Nat) : Rate :=
  match bestEntryAtMost t s.entries with
  | some kr => kr.2
  | none =>
    match minKeyEntry s.entries with
    | some kr => kr.2
    | none => { value := 0, refMBSize := 1 }

/-- A trainable parameter: stable unique id plus its current value tensor. -/
structure Parameter where
  uid : String
  value : Tensor
deriving DecidableEq

/-- Association-list lookup by string key, first match wins. -/
def assocLookup {α : Type} : List (String × α) → String → Option α
  | [], _ => none
  | (k, v) :: rest, key => if k = key then some v else assocLookup rest key

/-- Association-list insert-or-overwrite by string key. -/
def assocInsert {α : Type} : List (String × α) → String → α → List (String × α)
  | [], key, v => [(key, v)]
  | (k, w) :: rest, key, v =>
    if k = key then (key, v) :: rest else (k, w) :: assocInsert rest key v

/-- A checkpoint dictionary value.  The source stores sizes, strings, a
serialized schedule dictionary, serialized NDArrayViews and a vector of
serialized NDArrayViews; the constructors below cover exactly those uses.
The schedule constructor carries the schedule itself: this models the
serialize/deserialize pair, which the spec requires to round-trip the unit
kind, reference minibatch size and full entry mapping. -/
inductive DictValue where
  | natVal (n : Nat)
  | ratVal (q : ℚ)
  | strVal (s : String)
  | tensorVal (t : Tensor)
  | schedVal (s : Schedule)
  | tensorListVal (ts : List Tensor)
deriving DecidableEq

/-- A checkpoint dictionary: named key-value pairs. -/
abbrev Dictionary : Type := List (String × DictValue)

/-- Dictionary key lookup. -/
def lookupKey (d : Dictionary) (k : String) : Option DictValue :=
  assocLookup d k

/-- Dictionary::Contains. -/
def dictContains (d : Dictionary) (k : String) : Bool :=
  (lookupKey d k).isSome

def versionKey : String := "version"
def typeKey : String := "type"
def sampleCountKey : String := "sampleCount"
def minibatchCountKey : String := "minibatchCount"
def learningRateScheduleKey : String := "learning_rate_schedule"
def noiseInjectionSeedKey : String := "noise_injection_seed"
def smoothedGradientsKey : String := "smoothed_gradients"
def smoothedCountKey : String := "smoothed_count"

/-- The type tag written into base-learner checkpoints (s_learnerTypeValue). -/
def learnerTypeValue : String := "Learner"

/-- Modelled from the spec: the current checkpoint format version exported by
CurrentVersion() in the headers; at least 2, the positional
smoothed-gradient list format. -/
def currentCheckpointVersion : Nat := 2

def invalidArgEmptyMinibatchMsg : String :=
  "Learner Update cannot perform an update with an empty minibatch."
def missingGradientMsg : String := "gradient value missing for a parameter"
def missingRequiredKeyMsg : String := "checkpoint is missing a required key"
def missingVersionMsg : String := "checkpoint is missing the version key"
def typeMismatchMsg : String := "checkpoint type tag does not match"
def wrongValueTypeMsg : String := "checkpoint value has an unexpected type"
def missingSmoothedGradientMsg : String :=
  "checkpoint does not contain a smoothed gradient value for a parameter"
def dtypeMismatchMsg : String :=
  "data type of the restored smoothed gradient does not match the expected value"
def shapeMismatchMsg : String :=
  "shape of the restored smoothed gradient does not match the expected value"
def missingSmoothedCountMsg : String := "checkpoint is missing the smoothed count"

/-- The base learner state (LearnerBase).  Parameters and their smoothed
gradients (auxiliary state) are aligned by position, matching construction
order.  The virtual per-parameter update (PreProcess, the algorithm kernel
and PostProcess, dispatched by element type) and the virtual
UpdateOnMinibatch hook are embedded as function fields, mirroring the
dynamic dispatch of the class hierarchy: updateOneFn maps minibatch size,
smoothed count, parameter value, gradient and auxiliary tensor to the new
parameter value and new auxiliary tensor; onMinibatchFn maps minibatch size
and the old smoothed count to the new one (the identity for the base class,
the FSAdaGrad and Adam laws for the adaptive subclasses).
hasSmoothedCount is true exactly for the subclasses that carry the extra
smoothed-count scalar in their checkpoints (FSAdaGrad, Adam, RMSProp). -/
structure LearnerBase where
  schedule : Schedule
  sampleCount : Nat
  minibatchCount : Nat
  sweepCount : Nat
  parameters : List Parameter
  smoothedGradientValues : List Tensor
  noiseInjectionSeed : Nat
  smoothedCount : ℚ
  hasSmoothedCount : Bool
  onMinibatchFn : Nat → ℚ → ℚ
  updateOneFn : Nat → ℚ → Tensor → Tensor → Tensor → Tensor × Tensor
  trainingParametersMap : List (String × ℚ)

/-- The elapsed-unit count that drives lookups of a schedule of the given
unit kind: the sweep count for sweep-based schedules, the sample count
otherwise. -/
def LearnerBase.scheduleTime (L : LearnerBase) (s : Schedule) : Nat :=
  if s.sweepBased then L.sweepCount else L.sampleCount

/-- The learning-rate schedule value at the current time. -/
def LearnerBase.currentRate (L : LearnerBase) : Rate :=
  L.schedule.valueAt (L.scheduleTime L.schedule)

/-- Modelled from the spec: Learner::LearningRatePerSample (declared in the
headers) converts the nominal rate at the current time into an effective
per-sample rate using the reference minibatch size.  The minibatch-size
argument matches the source signature. -/
def LearnerBase.learningRatePerSample (L : LearnerBase) (trainingSampleCount : Nat) : ℚ :=
  L.currentRate.value / (L.currentRate.refMBSize : ℚ)

def learningRateReportName : String := "Learning rate"

/-- ReportTrainingParameterValue for the learning rate: record the value in
the training-parameters map when it differs from the last recorded value
(the progress-writer sink is external). -/
def LearnerBase.reportLearningRate (L : LearnerBase) : LearnerBase :=
  let v := L.currentRate.value
  match assocLookup L.trainingParametersMap learningRateReportName with
  | some w =>
    if w = v then L
    else { L with trainingParametersMap :=
            assocInsert L.trainingParametersMap learningRateReportName v }
  | none => { L with trainingParametersMap :=
            assocInsert L.trainingParametersMap learningRateReportName v }

/-- Result of an update call: either a returned boolean with the resulting
state, or a raised error carrying the state at the point of the throw. -/
inductive UpdateResult (σ : Type) where
  | ret (b : Bool) (state : σ)
  | err (msg : String) (state : σ)

/-- The state carried by an update result. -/
def UpdateResult.state {σ : Type} : UpdateResult σ → σ
  | .ret _ s => s
  | .err _ s => s

/-- The per-parameter pass of LearnerBase::Update: for each owned parameter in
construction order, look up its gradient (unordered_map::at throws when the
entry is missing) and run the dispatched per-parameter update.  An error
carries the pairs processed so far followed by the untouched remainder. -/
def updateLoop (f : Nat → ℚ → Tensor → Tensor → Tensor → Tensor × Tensor)
    (mb : Nat) (sc : ℚ) (gradientValues : List (String × Tensor)) :
    List (Parameter × Tensor) →
      Except (String × List (Parameter × Tensor)) (List (Parameter × Tensor))
  | [] => .ok []
  | (p, auxT) :: rest =>
    match assocLookup gradientValues p.uid with
    | none => .error (missingGradientMsg, (p, auxT) :: rest)
    | some g =>
      let pa := f mb sc p.value g auxT
      match updateLoop f mb sc gradientValues rest with
      | .ok prs => .ok (({ p with value := pa.1 }, pa.2) :: prs)
      | .error (m, prs) => .error (m, ({ p with value := pa.1 }, pa.2) :: prs)

/-- LearnerBase::Update: report the learning rate; return false when the
effective rate is exactly zero; fail on an empty minibatch; run the
UpdateOnMinibatch hook, then the per-parameter pass; finally advance the
sample and minibatch counters unconditionally and the sweep counter only at
a sweep end, returning true. -/
def LearnerBase.update (L : LearnerBase) (gradientValues : List (String × Tensor))
    (trainingSampleCount : Nat) (sweepEnd : Bool) : UpdateResult LearnerBase :=
  let L0 := L.reportLearningRate
  if L0.learningRatePerSample trainingSampleCount = 0 then
    .ret false L0
  else if trainingSampleCount = 0 then
    .err invalidArgEmptyMinibatchMsg L0
  else
    let L1 := { L0 with smoothedCount := L0.onMinibatchFn trainingSampleCount L0.smoothedCount }
    match updateLoop L1.updateOneFn trainingSampleCount L1.smoothedCount gradientValues
        (L1.parameters.zip L1.smoothedGradientValues) with
    | .error (m, prs) =>
      .err m { L1 with parameters := prs.map Prod.fst,
                       smoothedGradientValues := prs.map Prod.snd }
    | .ok prs =>
      .ret true { L1 with
        parameters := prs.map Prod.fst,
        smoothedGradientValues := prs.map Prod.snd,
        sampleCount := L1.sampleCount + trainingSampleCount,
        minibatchCount := L1.minibatchCount + 1,
        sweepCount := L1.sweepCount + (if sweepEnd then 1 else 0) }

/-- LearnerBase::CreateCheckpoint, with the subclass override appending the
smoothed-count scalar for the adaptive learners that carry one. -/
def LearnerBase.createCheckpoint (L : LearnerBase) : Dictionary :=
  let base : Dictionary :=
    [ (versionKey, .natVal currentCheckpointVersion),
      (typeKey, .strVal learnerTypeValue),
      (sampleCountKey, .natVal L.sampleCount),
      (minibatchCountKey, .natVal L.minibatchCount),
      (learningRateScheduleKey, .schedVal L.schedule),
      (noiseInjectionSeedKey, .natVal L.noiseInjectionSeed),
      (smoothedGradientsKey, .tensorListVal L.smoothedGradientValues) ]
  if L.hasSmoothedCount then base ++ [(smoothedCountKey, .ratVal L.smoothedCount)] else base

/-- LearnerBase::ResetSmoothedGradients: zero every auxiliary tensor; the
adaptive subclasses also reset their smoothed-count scalar. -/
def LearnerBase.resetSmoothedGradients (L : LearnerBase) : LearnerBase :=
  { L with smoothedGradientValues := L.smoothedGradientValues.map Tensor.setZero,
           smoothedCount := if L.hasSmoothedCount then 0 else L.smoothedCount }

/-- Learner::ResetLearningRate: clear the active schedule, take over the new
schedule unit kind, then store every (relative-time, value) entry of the new
schedule at the key currentCount + relativeTime, where currentCount is read
from whichever counter matches the (newly taken over) unit kind. -/
def LearnerBase.resetLearningRate (L : LearnerBase) (newSchedule : Schedule) : LearnerBase :=
  let cleared : Schedule := { entries := [], sweepBased := newSchedule.sweepBased }
  let currentCount := if cleared.sweepBased then L.sweepCount else L.sampleCount
  { L with schedule :=
      { cleared with
        entries := newSchedule.entries.map (fun kv => (currentCount + kv.1, kv.2)) } }

/-- Modelled from the spec: ValidateDictionary (Serialization, outside the
translated source) checks that the version key and every required key are
present and that the type tag matches the expected value, and returns the
version read from the checkpoint. -/
def validateDictionary (d : Dictionary) (requiredKeys : List String)
    (expectedType : String) : Except String Nat :=
  match lookupKey d versionKey with
  | some (.natVal v) =>
    if requiredKeys.all (fun k => dictContains d k) then
      match lookupKey d typeKey with
      | some (.strVal t) => if t = expectedType then .ok v else .error typeMismatchMsg
      | _ => .error typeMismatchMsg
    else .error missingRequiredKeyMsg
  | _ => .error missingVersionMsg

/-- The required keys of a base-learner checkpoint
(s_requiredDictionaryKeys in the source). -/
def requiredDictionaryKeys : List String :=
  [typeKey, sampleCountKey, minibatchCountKey, learningRateScheduleKey]

/-- The per-parameter fetch of a checkpointed smoothed gradient: for version
at least 2, position i of the ordered list under the smoothed-gradients key
(an out-of-range index is the missing-entry error); for older versions, the
parameter unique id as a top-level key. -/
def getSmoothedGradTensor (version : Nat) (ckpt : Dictionary) (i : Nat)
    (p : Parameter) : Except String Tensor :=
  if 2 ≤ version then
    match lookupKey ckpt smoothedGradientsKey with
    | some (.tensorListVal ts) =>
      match ts[i]? with
      | some t => .ok t
      | none => .error missingSmoothedGradientMsg
    | _ => .error wrongValueTypeMsg
  else
    match lookupKey ckpt p.uid with
    | some (.tensorVal t) => .ok t
    | some _ => .error wrongValueTypeMsg
    | none => .error missingSmoothedGradientMsg

/-- The restore loop over (parameter, live auxiliary tensor) pairs, position i
onward.  Each step fetches the checkpointed tensor, fails when its element
type or shape does not match the live auxiliary tensor, and otherwise
overwrites the auxiliary tensor in place.  An error carries the auxiliary
list as mutated so far: entries before the failure already hold the restored
tensors, the failing entry and everything after it keep their old values. -/
def restoreAuxLoop (version : Nat) (ckpt : Dictionary) (i : Nat) :
    List (Parameter × Tensor) → Except (String × List Tensor) (List Tensor)
  | [] => .ok []
  | (p, old) :: rest =>
    match getSmoothedGradTensor version ckpt i p with
    | .error m => .error (m, old :: rest.map Prod.snd)
    | .ok t =>
      if t.dtype ≠ old.dtype then .error (dtypeMismatchMsg, old :: rest.map Prod.snd)
      else if t.shape ≠ old.shape then .error (shapeMismatchMsg, old :: rest.map Prod.snd)
      else
        match restoreAuxLoop version ckpt (i + 1) rest with
        | .ok ts => .ok (t :: ts)
        | .error (m, ts) => .error (m, t :: ts)

/-- The optional noise-seed step of the restore: when the key is present the
seed is overwritten, when absent the constructor-assigned value is kept. -/
def applyNoiseSeed (ckpt : Dictionary) (L : LearnerBase) :
    Except (String × LearnerBase) LearnerBase :=
  match lookupKey ckpt noiseInjectionSeedKey with
  | none => .ok L
  | some (.natVal sd) => .ok { L with noiseInjectionSeed := sd }
  | some _ => .error (wrongValueTypeMsg, L)

/-- The schedule step of the restore: deserialize the checkpointed
learning-rate schedule and overwrite the active one. -/
def applySchedule (ckpt : Dictionary) (L : LearnerBase) :
    Except (String × LearnerBase) LearnerBase :=
  match lookupKey ckpt learningRateScheduleKey with
  | some (.schedVal s) => .ok { L with schedule := s }
  | some _ => .error (wrongValueTypeMsg, L)
  | none => .error (missingRequiredKeyMsg, L)

/-- The subclass tail of the restore: adaptive learners read their
smoothed-count scalar from the checkpoint (a missing key throws). -/
def applySmoothedCount (ckpt : Dictionary) (L : LearnerBase) :
    Except (String × LearnerBase) LearnerBase :=
  if L.hasSmoothedCount then
    match lookupKey ckpt smoothedCountKey with
    | some (.ratVal q) => .ok { L with smoothedCount := q }
    | some _ => .error (wrongValueTypeMsg, L)
    | none => .error (missingSmoothedCountMsg, L)
  else .ok L

/-- LearnerBase::RestoreFromCheckpoint (with the subclass smoothed-count tail):
validate the required keys, the type tag and, for version at least 2, the
presence of the smoothed-gradients list; then sequentially overwrite the
sample count, the minibatch count, the noise seed (when present), the
schedule, each auxiliary tensor in order, and the smoothed-count scalar.
A raised error carries the state at the point of the throw, so a failure
after the header reads leaves the learner partially overwritten.  The sweep
counter is never read from nor written by a restore. -/
def LearnerBase.restoreFromCheckpoint (L : LearnerBase) (ckpt : Dictionary) :
    Except (String × LearnerBase) LearnerBase :=
  match validateDictionary ckpt requiredDictionaryKeys learnerTypeValue with
  | .error m => .error (m, L)
  | .ok version =>
    if 2 ≤ version ∧ ¬ (dictContains ckpt smoothedGradientsKey = true) then
      .error (missingRequiredKeyMsg, L)
    else
      match lookupKey ckpt sampleCountKey with
      | some (.natVal s) =>
        let L1 := { L with sampleCount := s }
        match lookupKey ckpt minibatchCountKey with
        | some (.natVal mbc) =>
          let L2 := { L1 with minibatchCount := mbc }
          match applyNoiseSeed ckpt L2 with
          | .error e => .error e
          | .ok L3 =>
            match applySchedule ckpt L3 with
            | .error e => .error e
            | .ok L4 =>
              match restoreAuxLoop version ckpt 0
                  (L4.parameters.zip L4.smoothedGradientValues) with
              | .error (m, ts) => .error (m, { L4 with smoothedGradientValues := ts })
              | .ok ts => applySmoothedCount ckpt { L4 with smoothedGradientValues := ts }
        | _ => .error (wrongValueTypeMsg, L1)
      | _ => .error (wrongValueTypeMsg, L)

/-- The universal (delegated-update) learner state (LearnerUniversal).  Each
parameter is paired positionally with a bound gradient placeholder tensor;
the externally supplied update expression is embedded as the opaque
forwardFn, which maps the current parameter values and the bound gradient
values to the new parameter values produced by one evaluation of the
graph. -/
structure LearnerUniversal where
  schedule : Schedule
  sampleCount : Nat
  minibatchCount : Nat
  sweepCount : Nat
  parameters : List Parameter
  boundGradients : List Tensor
  forwardFn : List Tensor → List Tensor → List Tensor
  trainingParametersMap : List (String × ℚ)

/-- The elapsed-unit count driving schedule lookups of the universal learner. -/
def LearnerUniversal.scheduleTime (L : LearnerUniversal) : Nat :=
  if L.schedule.sweepBased then L.sweepCount else L.sampleCount

/-- The learning-rate schedule value of the universal learner at the current
time. -/
def LearnerUniversal.currentRate (L : LearnerUniversal) : Rate :=
  L.schedule.valueAt L.scheduleTime

/-- Modelled from the spec: the per-sample conversion of the current rate,
as for the base learner. -/
def LearnerUniversal.learningRatePerSample (L : LearnerUniversal)
    (trainingSampleCount : Nat) : ℚ :=
  L.currentRate.value / (L.currentRate.refMBSize : ℚ)

/-- ReportTrainingParameterValue for the universal learner. -/
def LearnerUniversal.reportLearningRate (L : LearnerUniversal) : LearnerUniversal :=
  let v := L.currentRate.value
  match assocLookup L.trainingParametersMap learningRateReportName with
  | some w =>
    if w = v then L
    else { L with trainingParametersMap :=
            assocInsert L.trainingParametersMap learningRateReportName v }
  | none => { L with trainingParametersMap :=
            assocInsert L.trainingParametersMap learningRateReportName v }

/-- The gradient-binding pass of LearnerUniversal::Update: for each parameter
in order, look up its minibatch gradient (unordered_map::at throws when the
entry is missing) and copy it into the bound placeholder.  An error carries
the placeholder list as mutated so far. -/
def bindGradients (gradientValues : List (String × Tensor)) :
    List (Parameter × Tensor) → Except (String × List Tensor) (List Tensor)
  | [] => .ok []
  | (p, old) :: rest =>
    match assocLookup gradientValues p.uid with
    | none => .error (missingGradientMsg, old :: rest.map Prod.snd)
    | some g =>
      match bindGradients gradientValues rest with
      | .ok ts => .ok (g :: ts)
      | .error (m, ts) => .error (m, g :: ts)

/-- Overwrite parameter values positionally with the outputs of the delegated
update expression. -/
def setParameterValues (ps : List Parameter) (vs : List Tensor) : List Parameter :=
  (ps.zip vs).map (fun pv => { pv.1 with value := pv.2 })

/-- LearnerUniversal::Update: report the learning rate; return false when the
effective rate is exactly zero; fail on an empty minibatch; copy every
minibatch gradient into its placeholder; evaluate the update expression
once, which rewrites the parameter values as a side effect; advance the
sample and minibatch counters unconditionally and the sweep counter only at
a sweep end, returning true.  No shared pre or post transforms run. -/
def LearnerUniversal.update (L : LearnerUniversal)
    (gradientValues : List (String × Tensor)) (trainingSampleCount : Nat)
    (sweepEnd : Bool) : UpdateResult LearnerUniversal :=
  let L0 := L.reportLearningRate
  if L0.learningRatePerSample trainingSampleCount = 0 then
    .ret false L0
  else if trainingSampleCount = 0 then
    .err invalidArgEmptyMinibatchMsg L0
  else
    match bindGradients gradientValues (L0.parameters.zip L0.boundGradients) with
    | .error (m, ts) => .err m { L0 with boundGradients := ts }
    | .ok ts =>
      let newValues := L0.forwardFn (L0.parameters.map Parameter.value) ts
      .ret true { L0 with
        boundGradients := ts,
        parameters := setParameterValues L0.parameters newValues,
        sampleCount := L0.sampleCount + trainingSampleCount,
        minibatchCount := L0.minibatchCount + 1,
        sweepCount := L0.sweepCount + (if sweepEnd then 1 else 0) }

/-- The declared inputs of an externally supplied update expression; variables
are identified by name. -/
structure UpdateFunc where
  inputs : List String

def countMismatchMsg : String :=
  "Number of parameters does not match number of gradients"
def noParametersMsg : String := "At least 1 parameter is needed in universal learner"
def paramNotInInputsMsg : String :=
  "Update function does not contain the parameter in its computation"
def gradWarningMsg : String :=
  "WARNING: Update function does not contain the gradient for parameter in its computation"

/-- The per-pair pass of LearnerUniversal::ValidateInput: a parameter missing
from the expression inputs is a fatal error; a gradient placeholder missing
from the inputs only emits a warning and validation continues.  On success
the parameter-to-gradient map is returned with the collected warnings. -/
def validateInputLoop (inputs : List String) :
    List (String × String) → Except String (List (String × String) × List String)
  | [] => .ok ([], [])
  | (p, g) :: rest =>
    if p ∈ inputs then
      let warn : List String := if g ∈ inputs then [] else [gradWarningMsg]
      match validateInputLoop inputs rest with
      | .ok mw => .ok ((p, g) :: mw.1, warn ++ mw.2)
      | .error m => .error m
    else .error paramNotInInputsMsg

/-- LearnerUniversal::ValidateInput: the parameter and gradient lists must
have equal nonzero length, and every parameter must appear among the update
expression inputs; a gradient placeholder absent from the inputs is only a
warning. -/
def LearnerUniversal.validateInput (parameters gradients : List String)
    (updateFunc : UpdateFunc) : Except String (List (String × String) × List String) :=
  if parameters.length ≠ gradients.length then .error countMismatchMsg
  else if parameters.length = 0 then .error noParametersMsg
  else validateInputLoop updateFunc.inputs (parameters.zip gradients)

/-- The gradient clipping configuration (AdditionalLearningOptions).  The
unbounded default, IEEE infinity in the source, is modelled as none. -/
structure ClipOptions where
  gradientClippingThresholdPerSample : Option ℝ
  gradientClippingWithTruncation : Bool

noncomputable section

/-- Modelled from the spec: Matrix::InplaceTruncate clamps each element
magnitude to the bound. -/
def inplaceTruncate (bound : ℝ) (g : List ℝ) : List ℝ :=
  g.map (fun x => max (-bound) (min bound x))

/-- Modelled from the spec: Matrix::FrobeniusNorm, the Euclidean norm of the
gradient tensor. -/
def frobeniusNorm (g : List ℝ) : ℝ :=
  Real.sqrt ((g.map (fun x => x * x)).sum)

/-- LearnerBase::ClipGradient: with an unbounded threshold the gradient is
untouched; a finite per-sample threshold is scaled by the minibatch size
into a per-minibatch bound; truncation mode clamps every element to the
bound, otherwise the whole tensor is rescaled by bound over norm exactly
when its Frobenius norm exceeds the bound. -/
def clipGradient (opts : ClipOptions) (actualMBSize : Nat) (g : List ℝ) : List ℝ :=
  match opts.gradientClippingThresholdPerSample with
  | none => g
  | some thr =>
    let maxGradientPerMB := thr * (actualMBSize : ℝ)
    if opts.gradientClippingWithTruncation then inplaceTruncate maxGradientPerMB g
    else
      let gradientNorm := frobeniusNorm g
      if maxGradientPerMB < gradientNorm then
        g.map (fun x => (maxGradientPerMB / gradientNorm) * x)
      else g

end

/-- The learner carried by a restore outcome (the final state on success, the
state at the throw on failure). -/
def restoreState : Except (String × LearnerBase) LearnerBase → LearnerBase
  | .ok l => l
  | .error (_, l) => l

/-- The restored learner, when the restore succeeded. -/
def restoreOkState : Except (String × LearnerBase) LearnerBase → Option LearnerBase
  | .ok l => some l
  | .error _ => none

/-- The learner at the point of the throw, when the restore failed. -/
def restoreErrState : Except (String × LearnerBase) LearnerBase → Option LearnerBase
  | .ok _ => none
  | .error (_, l) => some l

/-- The error message of a failed restore. -/
def restoreErrMsg : Except (String × LearnerBase) LearnerBase → Option String
  | .ok _ => none
  | .error (m, _) => some m

/-- Test fixture: a float tensor. -/
def tFloatA : Tensor := { dtype := .float, shape := [2, 1], data := [1, 2] }

/-- Test fixture: a float tensor of the same shape as tFloatA, other data. -/
def tFloatB : Tensor := { dtype := .float, shape := [2, 1], data := [3, 5] }

/-- Test fixture: a float tensor of a different shape. -/
def tFloatWide : Tensor := { dtype := .float, shape := [2, 2], data := [3, 5, 7, 9] }

/-- A per-sample rate. -/
def rateOf (q : ℚ) : Rate := { value := q, refMBSize := 1 }

/-- A constant sample-based schedule. -/
def constSchedule (q : ℚ) : Schedule :=
  { entries := [(0, rateOf q)], sweepBased := false }

/-- A per-parameter update function fixture that leaves everything unchanged. -/
def idUpdateFn : Nat → ℚ → Tensor → Tensor → Tensor → Tensor × Tensor :=
  fun _ _ p _ a => (p, a)

/-- Fixture builder for base learners. -/
def mkLearner (sched : Schedule) (ps : List Parameter) (auxTensors : List Tensor)
    (sc mbc swc seed : Nat) (hsc : Bool) : LearnerBase :=
  { schedule := sched, sampleCount := sc, minibatchCount := mbc, sweepCount := swc,
    parameters := ps, smoothedGradientValues := auxTensors, noiseInjectionSeed := seed,
    smoothedCount := 0, hasSmoothedCount := hsc,
    onMinibatchFn := fun _ q => q, updateOneFn := idUpdateFn,
    trainingParametersMap := [] }

/-- Fixture: a base learner whose learning-rate schedule is identically zero. -/
def learnerZero : LearnerBase :=
  mkLearner (constSchedule 0) [{ uid := "W0", value := tFloatA }] [tFloatA.setZero] 6 3 1 7 false

/-- Fixture: a universal learner whose learning-rate schedule is identically
zero. -/
def universalZero : LearnerUniversal :=
  { schedule := constSchedule 0, sampleCount := 6, minibatchCount := 3, sweepCount := 1,
    parameters := [{ uid := "W0", value := tFloatA }], boundGradients := [tFloatA.setZero],
    forwardFn := fun ps _ => ps, trainingParametersMap := [] }

/-- Fixture: a base learner with learning rate one. -/
def learnerOne : LearnerBase :=
  mkLearner (constSchedule 1) [{ uid := "W0", value := tFloatA }] [tFloatA.setZero] 6 3 1 7 false

/-- Fixture: a universal learner with learning rate one. -/
def universalOne : LearnerUniversal :=
  { universalZero with schedule := constSchedule 1 }

/-- Fixture for the checkpoint-content claim: a learner whose sweep count (7)
differs from every other numeric field. -/
def learnerSweep : LearnerBase :=
  mkLearner (constSchedule 1) [{ uid := "W0", value := tFloatA }] [tFloatA.setZero] 3 4 7 5 false

/-- Fixture for the roundtrip witness: an adaptive learner with a nonzero
smoothed count. -/
def learnerAdaptive : LearnerBase :=
  { mkLearner (constSchedule 1) [{ uid := "W0", value := tFloatA }] [tFloatB] 9 4 2 11 true
    with smoothedCount := 5 }

/-- Fixture for the partial-restore counterexample: a two-parameter learner. -/
def learnerTwo : LearnerBase :=
  mkLearner (constSchedule 1)
    [{ uid := "P0", value := tFloatA }, { uid := "P1", value := tFloatA }]
    [tFloatA, tFloatA] 10 8 2 7 false

/-- Fixture: a checkpoint for learnerTwo whose second smoothed-gradient tensor
has the wrong shape. -/
def badShapeCkpt : Dictionary :=
  [ (versionKey, .natVal 2),
    (typeKey, .strVal learnerTypeValue),
    (sampleCountKey, .natVal 5),
    (minibatchCountKey, .natVal 4),
    (learningRateScheduleKey, .schedVal (constSchedule 2)),
    (noiseInjectionSeedKey, .natVal 13),
    (smoothedGradientsKey, .tensorListVal [tFloatB, tFloatWide]) ]

/-- Fixture: a well-formed version-2 checkpoint with counters lower than those
of learnerTwo. -/
def lowerCountCkpt : Dictionary :=
  [ (versionKey, .natVal 2),
    (typeKey, .strVal learnerTypeValue),
    (sampleCountKey, .natVal 3),
    (minibatchCountKey, .natVal 1),
    (learningRateScheduleKey, .schedVal (constSchedule 2)),
    (noiseInjectionSeedKey, .natVal 13),
    (smoothedGradientsKey, .tensorListVal [tFloatB, tFloatB]) ]

/-- Fixture: a legacy (version 1) checkpoint for learnerOne, keyed by the
parameter unique id, with no noise-injection-seed entry. -/
def legacyCkpt : Dictionary :=
  [ (versionKey, .natVal 1),
    (typeKey, .strVal learnerTypeValue),
    (sampleCountKey, .natVal 2),
    (minibatchCountKey, .natVal 1),
    (learningRateScheduleKey, .schedVal (constSchedule 3)),
    ("W0", .tensorVal tFloatB) ]

/-- Fixture: a replacement schedule whose first entry sits at relative time 0. -/
def replacementSchedule : Schedule :=
  { entries := [(0, rateOf 4), (100, rateOf 2)], sweepBased := false }

lemma reportLearningRate_fields (L : LearnerBase) :
    L.reportLearningRate.schedule = L.schedule ∧
    L.reportLearningRate.sampleCount = L.sampleCount ∧
    L.reportLearningRate.minibatchCount = L.minibatchCount ∧
    L.reportLearningRate.sweepCount = L.sweepCount ∧
    L.reportLearningRate.parameters = L.parameters ∧
    L.reportLearningRate.smoothedGradientValues = L.smoothedGradientValues ∧
    L.reportLearningRate.noiseInjectionSeed = L.noiseInjectionSeed ∧
    L.reportLearningRate.smoothedCount = L.smoothedCount ∧
    L.reportLearningRate.hasSmoothedCount = L.hasSmoothedCount := by
  unfold LearnerBase.reportLearningRate
  cases assocLookup L.trainingParametersMap learningRateReportName with
  | none => exact ⟨rfl, rfl, rfl, rfl, rfl, rfl, rfl, rfl, rfl⟩
  | some w =>
    by_cases hw : w = L.currentRate.value <;>
      simp [hw]

lemma reportLearningRate_currentRate (L : LearnerBase) :
    L.reportLearningRate.currentRate = L.currentRate := by
  obtain ⟨h1, h2, _, h4, _⟩ := reportLearningRate_fields L
  unfold LearnerBase.currentRate LearnerBase.scheduleTime
  rw [h1, h2, h4]

lemma reportLearningRate_lrps (L : LearnerBase) (n : Nat) :
    L.reportLearningRate.learningRatePerSample n = L.learningRatePerSample n := by
  unfold LearnerBase.learningRatePerSample
  rw [reportLearningRate_currentRate]

lemma uReportLearningRate_fields (U : LearnerUniversal) :
    U.reportLearningRate.schedule = U.schedule ∧
    U.reportLearningRate.sampleCount = U.sampleCount ∧
    U.reportLearningRate.minibatchCount = U.minibatchCount ∧
    U.reportLearningRate.sweepCount = U.sweepCount ∧
    U.reportLearningRate.parameters = U.parameters ∧
    U.reportLearningRate.boundGradients = U.boundGradients := by
  unfold LearnerUniversal.reportLearningRate
  cases assocLookup U.trainingParametersMap learningRateReportName with
  | none => exact ⟨rfl, rfl, rfl, rfl, rfl, rfl⟩
  | some w =>
    by_cases hw : w = U.currentRate.value <;>
      simp [hw]

lemma uReportLearningRate_currentRate (U : LearnerUniversal) :
    U.reportLearningRate.currentRate = U.currentRate := by
  obtain ⟨h1, h2, _, h4, _⟩ := uReportLearningRate_fields U
  unfold LearnerUniversal.currentRate LearnerUniversal.scheduleTime
  rw [h1, h2, h4]

lemma uReportLearningRate_lrps (U : LearnerUniversal) (n : Nat) :
    U.reportLearningRate.learningRatePerSample n = U.learningRatePerSample n := by
  unfold LearnerUniversal.learningRatePerSample
  rw [uReportLearningRate_currentRate]

/-- C1: for every learner (base orchestration and the universal learner
alike), an Update call made while the learning-rate schedule evaluates to
exactly zero at the current time returns false and leaves every parameter
value, every auxiliary-state tensor, and all three elapsed counters (sample,
minibatch, sweep) unchanged; only the progress-reporting map may move. -/
theorem c1_zero_rate_update_is_noop (L : LearnerBase) (U : LearnerUniversal)
    (g gU : List (String × Tensor)) (mb mbU : Nat) (se seU : Bool)
    (h : L.currentRate.value = 0) (hU : U.currentRate.value = 0) :
    (L.update g mb se = .ret false L.reportLearningRate ∧
      L.reportLearningRate.parameters = L.parameters ∧
      L.reportLearningRate.smoothedGradientValues = L.smoothedGradientValues ∧
      L.reportLearningRate.smoothedCount = L.smoothedCount ∧
      L.reportLearningRate.sampleCount = L.sampleCount ∧
      L.reportLearningRate.minibatchCount = L.minibatchCount ∧
      L.reportLearningRate.sweepCount = L.sweepCount) ∧
    (U.update gU mbU seU = .ret false U.reportLearningRate ∧
      U.reportLearningRate.parameters = U.parameters ∧
      U.reportLearningRate.boundGradients = U.boundGradients ∧
      U.reportLearningRate.sampleCount = U.sampleCount ∧
      U.reportLearningRate.minibatchCount = U.minibatchCount ∧
      U.reportLearningRate.sweepCount = U.sweepCount) := by
  have hz : L.reportLearningRate.learningRatePerSample mb = 0 := by
    rw [reportLearningRate_lrps]
    unfold LearnerBase.learningRatePerSample
    rw [h, zero_div]
  have hzU : U.reportLearningRate.learningRatePerSample mbU = 0 := by
    rw [uReportLearningRate_lrps]
    unfold LearnerUniversal.learningRatePerSample
    rw [hU, zero_div]
  obtain ⟨_, h2, h3, h4, h5, h6, _, h8, _⟩ := reportLearningRate_fields L
  obtain ⟨_, k2, k3, k4, k5, k6⟩ := uReportLearningRate_fields U
  constructor
  · refine ⟨?_, h5, h6, h8, h2, h3, h4⟩
    unfold LearnerBase.update
    rw [if_pos hz]
  · refine ⟨?_, k5, k6, k2, k3, k4⟩
    unfold LearnerUniversal.update
    rw [if_pos hzU]

/-- Witness for c1_zero_rate_update_is_noop at a concrete zero-rate learner
pair. -/
theorem c1_zero_rate_update_is_noop_witness :
    learnerZero.currentRate.value = 0 ∧ universalZero.currentRate.value = 0 ∧
    learnerZero.update [("W0", tFloatB)] 4 true = .ret false learnerZero.reportLearningRate ∧
    universalZero.update [("W0", tFloatB)] 4 true =
      .ret false universalZero.reportLearningRate :=
  ⟨rfl, rfl,
    ((c1_zero_rate_update_is_noop learnerZero universalZero [("W0", tFloatB)]
      [("W0", tFloatB)] 4 4 true true rfl rfl).1).1,
    ((c1_zero_rate_update_is_noop learnerZero universalZero [("W0", tFloatB)]
      [("W0", tFloatB)] 4 4 true true rfl rfl).2).1⟩

/-- C2 counterexample: the claim says every Update call with sampleCount zero
fails with an invalid-argument condition, but on a learner whose
learning-rate schedule evaluates to zero the zero-rate early return fires
first and Update returns false without raising. -/
theorem c2_counterexample_zero_rate_masks_zero_samplecount :
    learnerZero.update [] 0 false = .ret false learnerZero.reportLearningRate ∧
    universalZero.update [] 0 false = .ret false universalZero.reportLearningRate := by
  have hz : learnerZero.reportLearningRate.learningRatePerSample 0 = 0 := by
    rw [reportLearningRate_lrps]
    unfold LearnerBase.learningRatePerSample
    rw [show learnerZero.currentRate.value = 0 from rfl, zero_div]
  have hzU : universalZero.reportLearningRate.learningRatePerSample 0 = 0 := by
    rw [uReportLearningRate_lrps]
    unfold LearnerUniversal.learningRatePerSample
    rw [show universalZero.currentRate.value = 0 from rfl, zero_div]
  constructor
  · unfold LearnerBase.update
    rw [if_pos hz]
  · unfold LearnerUniversal.update
    rw [if_pos hzU]

/-- C2 amended: an Update call with sampleCount zero fails with the
invalid-argument condition provided the effective learning rate at the
current time is nonzero; when the rate is zero, the call returns false
without raising (the zero-rate check precedes the sample-count check). -/
theorem c2_zero_samplecount_invalid_argument (L : LearnerBase) (U : LearnerUniversal)
    (g gU : List (String × Tensor)) (se seU : Bool)
    (h : L.learningRatePerSample 0 ≠ 0) (hU : U.learningRatePerSample 0 ≠ 0) :
    L.update g 0 se = .err invalidArgEmptyMinibatchMsg L.reportLearningRate ∧
    U.update gU 0 seU = .err invalidArgEmptyMinibatchMsg U.reportLearningRate := by
  constructor
  · unfold LearnerBase.update
    rw [if_neg (by rw [reportLearningRate_lrps]; exact h), if_pos rfl]
  · unfold LearnerUniversal.update
    rw [if_neg (by rw [uReportLearningRate_lrps]; exact hU), if_pos rfl]

/-- Witness for c2_zero_samplecount_invalid_argument at concrete rate-one
learners. -/
theorem c2_zero_samplecount_invalid_argument_witness :
    learnerOne.learningRatePerSample 0 ≠ 0 ∧
    universalOne.learningRatePerSample 0 ≠ 0 ∧
    learnerOne.update [] 0 true = .err invalidArgEmptyMinibatchMsg
      learnerOne.reportLearningRate ∧
    universalOne.update [] 0 true = .err invalidArgEmptyMinibatchMsg
      universalOne.reportLearningRate := by
  have h1 : learnerOne.learningRatePerSample 0 ≠ 0 := by
    unfold LearnerBase.learningRatePerSample
    rw [show learnerOne.currentRate.value = 1 from rfl,
        show learnerOne.currentRate.refMBSize = 1 from rfl]
    norm_num
  have h2 : universalOne.learningRatePerSample 0 ≠ 0 := by
    unfold LearnerUniversal.learningRatePerSample
    rw [show universalOne.currentRate.value = 1 from rfl,
        show universalOne.currentRate.refMBSize = 1 from rfl]
    norm_num
  exact ⟨h1, h2,
    (c2_zero_samplecount_invalid_argument learnerOne universalOne [] [] true true h1 h2).1,
    (c2_zero_samplecount_invalid_argument learnerOne universalOne [] [] true true h1 h2).2⟩

lemma createCheckpoint_lookup (L : LearnerBase) :
    lookupKey L.createCheckpoint versionKey = some (.natVal currentCheckpointVersion) ∧
    lookupKey L.createCheckpoint typeKey = some (.strVal learnerTypeValue) ∧
    lookupKey L.createCheckpoint sampleCountKey = some (.natVal L.sampleCount) ∧
    lookupKey L.createCheckpoint minibatchCountKey = some (.natVal L.minibatchCount) ∧
    lookupKey L.createCheckpoint learningRateScheduleKey = some (.schedVal L.schedule) ∧
    lookupKey L.createCheckpoint noiseInjectionSeedKey = some (.natVal L.noiseInjectionSeed) ∧
    lookupKey L.createCheckpoint smoothedGradientsKey =
      some (.tensorListVal L.smoothedGradientValues) := by
  unfold LearnerBase.createCheckpoint
  split <;> exact ⟨rfl, rfl, rfl, rfl, rfl, rfl, rfl⟩

lemma createCheckpoint_lookup_smoothedCount (L : LearnerBase)
    (h : L.hasSmoothedCount = true) :
    lookupKey L.createCheckpoint smoothedCountKey = some (.ratVal L.smoothedCount) := by
  unfold LearnerBase.createCheckpoint
  rw [if_pos h]
  rfl

/-- C3 counterexample: on a learner whose sweep count is 7 and whose every
other numeric field differs from 7, no value of the produced checkpoint
equals 7; the sweep counter is not stored, contradicting the claim that all
three elapsed counters are checkpointed. -/
theorem c3_counterexample_checkpoint_lacks_sweep_count :
    learnerSweep.sweepCount = 7 ∧
    learnerSweep.createCheckpoint.all
      (fun kv => !(kv.2 == DictValue.natVal 7)) = true := by
  constructor
  · rfl
  · decide

/-- C3 amended: the checkpoint produced by CreateCheckpoint contains the
sample count and the minibatch count but not the sweep count, together with
the format version, type tag, serialized learning-rate schedule,
noise-injection seed, one serialized auxiliary-state tensor per parameter in
construction order, and, for the adaptive variants, the smoothed-count
scalar; its keys are exactly those listed. -/
theorem c3_checkpoint_contents (L : LearnerBase) :
    lookupKey L.createCheckpoint versionKey = some (.natVal currentCheckpointVersion) ∧
    lookupKey L.createCheckpoint typeKey = some (.strVal learnerTypeValue) ∧
    lookupKey L.createCheckpoint sampleCountKey = some (.natVal L.sampleCount) ∧
    lookupKey L.createCheckpoint minibatchCountKey = some (.natVal L.minibatchCount) ∧
    lookupKey L.createCheckpoint learningRateScheduleKey = some (.schedVal L.schedule) ∧
    lookupKey L.createCheckpoint noiseInjectionSeedKey = some (.natVal L.noiseInjectionSeed) ∧
    lookupKey L.createCheckpoint smoothedGradientsKey =
      some (.tensorListVal L.smoothedGradientValues) ∧
    (L.hasSmoothedCount = true →
      lookupKey L.createCheckpoint smoothedCountKey = some (.ratVal L.smoothedCount)) ∧
    (L.parameters.length = L.smoothedGradientValues.length →
      ∃ ts, lookupKey L.createCheckpoint smoothedGradientsKey =
          some (.tensorListVal ts) ∧ ts.length = L.parameters.length) ∧
    L.createCheckpoint.map Prod.fst =
      [versionKey, typeKey, sampleCountKey, minibatchCountKey,
       learningRateScheduleKey, noiseInjectionSeedKey, smoothedGradientsKey] ++
      (if L.hasSmoothedCount then [smoothedCountKey] else []) := by
  obtain ⟨h1, h2, h3, h4, h5, h6, h7⟩ := createCheckpoint_lookup L
  refine ⟨h1, h2, h3, h4, h5, h6, h7, ?_, ?_, ?_⟩
  · exact fun h => createCheckpoint_lookup_smoothedCount L h
  · exact fun hlen => ⟨L.smoothedGradientValues, h7, hlen.symm⟩
  · unfold LearnerBase.createCheckpoint
    split <;> rfl

/-- Witness for c3_checkpoint_contents at a concrete adaptive learner. -/
theorem c3_checkpoint_contents_witness :
    learnerAdaptive.hasSmoothedCount = true ∧
    learnerAdaptive.parameters.length = learnerAdaptive.smoothedGradientValues.length ∧
    lookupKey learnerAdaptive.createCheckpoint smoothedCountKey =
      some (.ratVal learnerAdaptive.smoothedCount) ∧
    lookupKey learnerAdaptive.createCheckpoint sampleCountKey =
      some (.natVal learnerAdaptive.sampleCount) :=
  ⟨rfl, rfl,
    ((c3_checkpoint_contents learnerAdaptive).2.2.2.2.2.2.2).1 rfl,
    (c3_checkpoint_contents learnerAdaptive).2.2.1⟩

lemma applyNoiseSeed_ok_counts (ck : Dictionary) (L l : LearnerBase)
    (h : applyNoiseSeed ck L = .ok l) :
    l.sampleCount = L.sampleCount ∧ l.minibatchCount = L.minibatchCount ∧
    l.sweepCount = L.sweepCount := by
  unfold applyNoiseSeed at h
  split at h <;> cases h <;> exact ⟨rfl, rfl, rfl⟩

lemma applySchedule_ok_counts (ck : Dictionary) (L l : LearnerBase)
    (h : applySchedule ck L = .ok l) :
    l.sampleCount = L.sampleCount ∧ l.minibatchCount = L.minibatchCount ∧
    l.sweepCount = L.sweepCount := by
  unfold applySchedule at h
  split at h <;> cases h <;> exact ⟨rfl, rfl, rfl⟩

lemma applySmoothedCount_ok_counts (ck : Dictionary) (L l : LearnerBase)
    (h : applySmoothedCount ck L = .ok l) :
    l.sampleCount = L.sampleCount ∧ l.minibatchCount = L.minibatchCount ∧
    l.sweepCount = L.sweepCount := by
  unfold applySmoothedCount at h
  split at h
  · split at h <;> cases h <;> exact ⟨rfl, rfl, rfl⟩
  · cases h; exact ⟨rfl, rfl, rfl⟩

lemma restore_ok_counters (L l : LearnerBase) (ck : Dictionary)
    (h : L.restoreFromCheckpoint ck = .ok l) :
    lookupKey ck sampleCountKey = some (.natVal l.sampleCount) ∧
    lookupKey ck minibatchCountKey = some (.natVal l.minibatchCount) ∧
    l.sweepCount = L.sweepCount := by
  unfold LearnerBase.restoreFromCheckpoint at h
  split at h
  · cases h
  · split at h
    · cases h
    · split at h
      case _ s heqs =>
        split at h
        case _ mbc heqm =>
          simp only [] at h
          split at h
          · cases h
          case _ L3 heq3 =>
            split at h
            · cases h
            case _ L4 heq4 =>
              split at h
              · cases h
              case _ ts heq5 =>
                obtain ⟨n1, n2, n3⟩ := applyNoiseSeed_ok_counts _ _ _ heq3
                obtain ⟨s1, s2, s3⟩ := applySchedule_ok_counts _ _ _ heq4
                obtain ⟨m1, m2, m3⟩ := applySmoothedCount_ok_counts _ _ _ h
                refine ⟨?_, ?_, ?_⟩
                · rw [heqs]
                  have : l.sampleCount = s := by
                    rw [m1]; show L4.sampleCount = s
                    rw [s1, n1]
                  rw [this]
                · rw [heqm]
                  have : l.minibatchCount = mbc := by
                    rw [m2]; show L4.minibatchCount = mbc
                    rw [s2, n2]
                  rw [this]
                · rw [m3]; show L4.sweepCount = L.sweepCount
                  rw [s3, n3]
        case _ hne => cases h
      case _ hne => cases h

lemma update_ret_true_counts (L : LearnerBase) (g : List (String × Tensor))
    (mb : Nat) (se : Bool) (L' : LearnerBase) (h : L.update g mb se = .ret true L') :
    L'.sampleCount = L.sampleCount + mb ∧ L'.minibatchCount = L.minibatchCount + 1 ∧
    L'.sweepCount = L.sweepCount + (if se then 1 else 0) := by
  obtain ⟨_, h2, h3, h4, _⟩ := reportLearningRate_fields L
  unfold LearnerBase.update at h
  by_cases hz : L.reportLearningRate.learningRatePerSample mb = 0
  · rw [if_pos hz] at h
    simp at h
  · rw [if_neg hz] at h
    by_cases hmb : mb = 0
    · rw [if_pos hmb] at h
      simp at h
    · rw [if_neg hmb] at h
      simp only [] at h
      split at h
      · simp at h
      · rw [UpdateResult.ret.injEq] at h
        rw [← h.2]
        exact ⟨by simp [h2], by simp [h3], by simp [h4]⟩

lemma update_counts_mono (L : LearnerBase) (g : List (String × Tensor))
    (mb : Nat) (se : Bool) :
    L.sampleCount ≤ (L.update g mb se).state.sampleCount ∧
    L.minibatchCount ≤ (L.update g mb se).state.minibatchCount ∧
    L.sweepCount ≤ (L.update g mb se).state.sweepCount := by
  obtain ⟨_, h2, h3, h4, _⟩ := reportLearningRate_fields L
  unfold LearnerBase.update
  by_cases hz : L.reportLearningRate.learningRatePerSample mb = 0
  · rw [if_pos hz]
    simp [UpdateResult.state, h2, h3, h4]
  · rw [if_neg hz]
    by_cases hmb : mb = 0
    · rw [if_pos hmb]
      simp [UpdateResult.state, h2, h3, h4]
    · rw [if_neg hmb]
      simp only []
      split
      · simp [UpdateResult.state, h2, h3, h4]
      · refine ⟨?_, ?_, ?_⟩ <;> simp [UpdateResult.state, h2, h3, h4] <;> omega

lemma uUpdate_ret_true_counts (U : LearnerUniversal) (g : List (String × Tensor))
    (mb : Nat) (se : Bool) (U' : LearnerUniversal) (h : U.update g mb se = .ret true U') :
    U'.sampleCount = U.sampleCount + mb ∧ U'.minibatchCount = U.minibatchCount + 1 ∧
    U'.sweepCount = U.sweepCount + (if se then 1 else 0) := by
  obtain ⟨_, h2, h3, h4, _⟩ := uReportLearningRate_fields U
  unfold LearnerUniversal.update at h
  by_cases hz : U.reportLearningRate.learningRatePerSample mb = 0
  · rw [if_pos hz] at h
    simp at h
  · rw [if_neg hz] at h
    by_cases hmb : mb = 0
    · rw [if_pos hmb] at h
      simp at h
    · rw [if_neg hmb] at h
      simp only [] at h
      split at h
      · simp at h
      · rw [UpdateResult.ret.injEq] at h
        rw [← h.2]
        exact ⟨by simp [h2], by simp [h3], by simp [h4]⟩

lemma uUpdate_counts_mono (U : LearnerUniversal) (g : List (String × Tensor))
    (mb : Nat) (se : Bool) :
    U.sampleCount ≤ (U.update g mb se).state.sampleCount ∧
    U.minibatchCount ≤ (U.update g mb se).state.minibatchCount ∧
    U.sweepCount ≤ (U.update g mb se).state.sweepCount := by
  obtain ⟨_, h2, h3, h4, _⟩ := uReportLearningRate_fields U
  unfold LearnerUniversal.update
  by_cases hz : U.reportLearningRate.learningRatePerSample mb = 0
  · rw [if_pos hz]
    simp [UpdateResult.state, h2, h3, h4]
  · rw [if_neg hz]
    by_cases hmb : mb = 0
    · rw [if_pos hmb]
      simp [UpdateResult.state, h2, h3, h4]
    · rw [if_neg hmb]
      simp only []
      split
      · simp [UpdateResult.state, h2, h3, h4]
      · refine ⟨?_, ?_, ?_⟩ <;> simp [UpdateResult.state, h2, h3, h4] <;> omega

/-- C7 counterexample: the claim asserts the counters never decrease across
any operation, but restoring a checkpoint whose stored counters are lower
rewinds the sample and minibatch counts (10 to 3 here). -/
theorem c7_counterexample_restore_rewinds_counters :
    (restoreOkState (learnerTwo.restoreFromCheckpoint lowerCountCkpt)).map
      LearnerBase.sampleCount = some 3 ∧
    (restoreOkState (learnerTwo.restoreFromCheckpoint lowerCountCkpt)).map
      LearnerBase.minibatchCount = some 1 ∧
    learnerTwo.sampleCount = 10 ∧ learnerTwo.minibatchCount = 8 :=
  ⟨rfl, rfl, rfl, rfl⟩

/-- C7 amended: every successful Update call (one that returns true), on the
base orchestration and the universal learner alike, increments the sample
count by exactly sampleCount, the minibatch count by exactly 1, and the
sweep count by exactly 1 if and only if sweepEnd; the three counters are
monotonically non-decreasing across Update (whatever its outcome),
ResetSmoothedGradients and ResetLearningRate; RestoreFromCheckpoint instead
sets the sample and minibatch counters to the checkpointed values (which may
be lower) and leaves the sweep counter unchanged. -/
theorem c7_counter_discipline (L : LearnerBase) (U : LearnerUniversal)
    (g gU : List (String × Tensor)) (mb mbU : Nat) (se seU : Bool)
    (ns : Schedule) (ck : Dictionary) :
    (∀ L', L.update g mb se = .ret true L' →
      L'.sampleCount = L.sampleCount + mb ∧
      L'.minibatchCount = L.minibatchCount + 1 ∧
      L'.sweepCount = L.sweepCount + (if se then 1 else 0)) ∧
    (∀ U', U.update gU mbU seU = .ret true U' →
      U'.sampleCount = U.sampleCount + mbU ∧
      U'.minibatchCount = U.minibatchCount + 1 ∧
      U'.sweepCount = U.sweepCount + (if seU then 1 else 0)) ∧
    (L.sampleCount ≤ (L.update g mb se).state.sampleCount ∧
      L.minibatchCount ≤ (L.update g mb se).state.minibatchCount ∧
      L.sweepCount ≤ (L.update g mb se).state.sweepCount) ∧
    (U.sampleCount ≤ (U.update gU mbU seU).state.sampleCount ∧
      U.minibatchCount ≤ (U.update gU mbU seU).state.minibatchCount ∧
      U.sweepCount ≤ (U.update gU mbU seU).state.sweepCount) ∧
    (L.resetSmoothedGradients.sampleCount = L.sampleCount ∧
      L.resetSmoothedGradients.minibatchCount = L.minibatchCount ∧
      L.resetSmoothedGradients.sweepCount = L.sweepCount) ∧
    ((L.resetLearningRate ns).sampleCount = L.sampleCount ∧
      (L.resetLearningRate ns).minibatchCount = L.minibatchCount ∧
      (L.resetLearningRate ns).sweepCount = L.sweepCount) ∧
    (∀ l, L.restoreFromCheckpoint ck = .ok l →
      lookupKey ck sampleCountKey = some (.natVal l.sampleCount) ∧
      lookupKey ck minibatchCountKey = some (.natVal l.minibatchCount) ∧
      l.sweepCount = L.sweepCount) :=
  ⟨fun L' h => update_ret_true_counts L g mb se L' h,
    fun U' h => uUpdate_ret_true_counts U gU mbU seU U' h,
    update_counts_mono L g mb se,
    uUpdate_counts_mono U gU mbU seU,
    ⟨rfl, rfl, rfl⟩,
    ⟨rfl, rfl, rfl⟩,
    fun l h => restore_ok_counters L l ck h⟩

/-- Witness for c7_counter_discipline at a concrete successful update. -/
theorem c7_counter_discipline_witness :
    learnerOne.update [("W0", tFloatB)] 4 true =
      .ret true (learnerOne.update [("W0", tFloatB)] 4 true).state ∧
    (learnerOne.update [("W0", tFloatB)] 4 true).state.sampleCount =
      learnerOne.sampleCount + 4 ∧
    (learnerOne.update [("W0", tFloatB)] 4 true).state.minibatchCount =
      learnerOne.minibatchCount + 1 ∧
    (learnerOne.update [("W0", tFloatB)] 4 true).state.sweepCount =
      learnerOne.sweepCount + (if true then 1 else 0) := by
  have hret : learnerOne.update [("W0", tFloatB)] 4 true =
      .ret true (learnerOne.update [("W0", tFloatB)] 4 true).state := by
    have hnz : learnerOne.reportLearningRate.learningRatePerSample 4 ≠ 0 := by
      rw [reportLearningRate_lrps]
      unfold LearnerBase.learningRatePerSample
      rw [show learnerOne.currentRate.value = 1 from rfl,
          show learnerOne.currentRate.refMBSize = 1 from rfl]
      norm_num
    unfold LearnerBase.update
    rw [if_neg hnz, if_neg (by norm_num)]
    rfl
  obtain ⟨ha, hb, hc⟩ :=
    (c7_counter_discipline learnerOne universalOne [("W0", tFloatB)] [("W0", tFloatB)]
      4 4 true true (constSchedule 1) []).1
      ((learnerOne.update [("W0", tFloatB)] 4 true).state) hret
  exact ⟨hret, ha, hb, hc⟩

lemma validate_createCheckpoint (L : LearnerBase) :
    validateDictionary L.createCheckpoint requiredDictionaryKeys learnerTypeValue =
      .ok 2 := by
  obtain ⟨h1, h2, h3, h4, h5, h6, h7⟩ := createCheckpoint_lookup L
  unfold validateDictionary
  rw [h1]
  have hall : requiredDictionaryKeys.all
      (fun k => dictContains L.createCheckpoint k) = true := by
    simp [requiredDictionaryKeys, dictContains, h2, h3, h4, h5]
  simp only []
  rw [if_pos hall, h2]
  simp [currentCheckpointVersion]

lemma restoreAuxLoop_roundtrip (ck : Dictionary) (full : List Tensor)
    (hck : lookupKey ck smoothedGradientsKey = some (.tensorListVal full)) :
    ∀ (ps : List Parameter) (origs : List Tensor) (i : Nat),
      ps.length = origs.length → full.drop i = origs →
      restoreAuxLoop 2 ck i (ps.zip (origs.map Tensor.setZero)) = .ok origs := by
  intro ps
  induction ps with
  | nil =>
    intro origs i hlen hdrop
    cases origs with
    | nil => rfl
    | cons t ts => simp at hlen
  | cons p ps ih =>
    intro origs i hlen hdrop
    cases origs with
    | nil => simp at hlen
    | cons t ts =>
      have hget : full[i]? = some t := by
        have h0 : (full.drop i)[0]? = some t := by rw [hdrop]; simp
        rw [List.getElem?_drop] at h0
        simpa using h0
      have hdrop2 : full.drop (i + 1) = ts := by
        have hd := congrArg (List.drop 1) hdrop
        rw [List.drop_drop 1 i full] at hd
        simpa using hd
      have hlen2 : ps.length = ts.length := by simpa using hlen
      have hfetch : getSmoothedGradTensor 2 ck i p = .ok t := by
        unfold getSmoothedGradTensor
        rw [if_pos (by norm_num), hck]
        simp only []
        rw [hget]
      show restoreAuxLoop 2 ck i ((p, t.setZero) :: ps.zip (ts.map Tensor.setZero)) =
        .ok (t :: ts)
      unfold restoreAuxLoop
      rw [hfetch]
      simp only []
      rw [if_neg (by simp [Tensor.setZero]), if_neg (by simp [Tensor.setZero])]
      rw [ih ts (i + 1) hlen2 hdrop2]

/-- C4: a CreateCheckpoint, followed by resetting the auxiliary state to zero
with ResetSmoothedGradients, followed by RestoreFromCheckpoint of that
checkpoint, reproduces exactly (bit-for-bit in the exact values of the model) the
pre-reset auxiliary-state tensors, the elapsed counters, the noise seed, the
learning-rate schedule, and the algorithm-specific smoothed-count scalar of
the adaptive variants: the learner is restored to precisely its prior
state. -/
theorem c4_checkpoint_roundtrip (L : LearnerBase)
    (hlen : L.parameters.length = L.smoothedGradientValues.length) :
    L.resetSmoothedGradients.restoreFromCheckpoint L.createCheckpoint = .ok L := by
  obtain ⟨h1, h2, h3, h4, h5, h6, h7⟩ := createCheckpoint_lookup L
  have hval := validate_createCheckpoint L
  have hloop := restoreAuxLoop_roundtrip L.createCheckpoint L.smoothedGradientValues h7
    L.parameters L.smoothedGradientValues 0 hlen (List.drop_zero L.smoothedGradientValues)
  unfold LearnerBase.resetSmoothedGradients LearnerBase.restoreFromCheckpoint
  rw [hval]
  simp only []
  rw [if_neg (by simp [dictContains, h7])]
  rw [h3]
  simp only []
  rw [h4]
  simp only []
  unfold applyNoiseSeed
  rw [h6]
  simp only []
  unfold applySchedule
  rw [h5]
  simp only []
  rw [hloop]
  simp only []
  unfold applySmoothedCount
  by_cases hsc : L.hasSmoothedCount
  · rw [if_pos hsc, createCheckpoint_lookup_smoothedCount L hsc]
  · rw [if_neg hsc, if_neg hsc]

/-- Witness for c4_checkpoint_roundtrip at a concrete adaptive learner. -/
theorem c4_checkpoint_roundtrip_witness :
    learnerAdaptive.parameters.length = learnerAdaptive.smoothedGradientValues.length ∧
    learnerAdaptive.resetSmoothedGradients.restoreFromCheckpoint
      learnerAdaptive.createCheckpoint = .ok learnerAdaptive :=
  ⟨rfl, c4_checkpoint_roundtrip learnerAdaptive rfl⟩

lemma validate_error_of_missing (ck : Dictionary) (k : String)
    (hk : k ∈ requiredDictionaryKeys) (hnone : lookupKey ck k = none) :
    ∃ m, validateDictionary ck requiredDictionaryKeys learnerTypeValue = .error m := by
  unfold validateDictionary
  cases hv : lookupKey ck versionKey with
  | none => exact ⟨missingVersionMsg, rfl⟩
  | some v =>
    cases v with
    | natVal n =>
      have hall : ¬ ((requiredDictionaryKeys.all (fun key => dictContains ck key)) = true) := by
        intro hx
        rw [List.all_eq_true] at hx
        have hc := hx k hk
        rw [dictContains, hnone] at hc
        simp at hc
      refine ⟨missingRequiredKeyMsg, ?_⟩
      simp only []
      rw [if_neg hall]
    | ratVal q => exact ⟨missingVersionMsg, rfl⟩
    | strVal s => exact ⟨missingVersionMsg, rfl⟩
    | tensorVal t => exact ⟨missingVersionMsg, rfl⟩
    | schedVal s => exact ⟨missingVersionMsg, rfl⟩
    | tensorListVal ts => exact ⟨missingVersionMsg, rfl⟩

lemma restore_error_unchanged_of_missing (L : LearnerBase) (ck : Dictionary) (k : String)
    (hk : k ∈ requiredDictionaryKeys) (hnone : lookupKey ck k = none) :
    ∃ m, L.restoreFromCheckpoint ck = .error (m, L) := by
  obtain ⟨m, hm⟩ := validate_error_of_missing ck k hk hnone
  unfold LearnerBase.restoreFromCheckpoint
  rw [hm]
  exact ⟨m, rfl⟩

lemma restoreAuxLoop_ok_matches (ck : Dictionary) (version : Nat) :
    ∀ (pairs : List (Parameter × Tensor)) (i : Nat) (ts : List Tensor),
      restoreAuxLoop version ck i pairs = .ok ts →
      ∀ j pr, pairs[j]? = some pr →
        ∃ t, getSmoothedGradTensor version ck (i + j) pr.1 = .ok t ∧
          t.dtype = pr.2.dtype ∧ t.shape = pr.2.shape := by
  intro pairs
  induction pairs with
  | nil =>
    intro i ts h j pr hpr
    simp at hpr
  | cons hd rest ih =>
    obtain ⟨p, old⟩ := hd
    intro i ts h j pr hpr
    unfold restoreAuxLoop at h
    split at h
    · cases h
    case _ t hfetch =>
      split at h
      · cases h
      case _ hdt =>
        split at h
        · cases h
        case _ hsh =>
          split at h
          case _ ts2 hrec =>
            cases j with
            | zero =>
              rw [List.getElem?_cons_zero] at hpr
              cases hpr
              exact ⟨t, by simpa using hfetch,
                by simpa using not_not.mp (by simpa using hdt),
                by simpa using not_not.mp (by simpa using hsh)⟩
            | succ j2 =>
              rw [List.getElem?_cons_succ] at hpr
              have hres := ih (i + 1) ts2 hrec j2 pr hpr
              have harith : i + 1 + j2 = i + (j2 + 1) := by omega
              rw [harith] at hres
              exact hres
          case _ e hrec => cases h

lemma applyNoiseSeed_ok_arrays (ck : Dictionary) (L l : LearnerBase)
    (h : applyNoiseSeed ck L = .ok l) :
    l.parameters = L.parameters ∧ l.smoothedGradientValues = L.smoothedGradientValues := by
  unfold applyNoiseSeed at h
  split at h <;> cases h <;> exact ⟨rfl, rfl⟩

lemma applySchedule_ok_arrays (ck : Dictionary) (L l : LearnerBase)
    (h : applySchedule ck L = .ok l) :
    l.parameters = L.parameters ∧ l.smoothedGradientValues = L.smoothedGradientValues := by
  unfold applySchedule at h
  split at h <;> cases h <;> exact ⟨rfl, rfl⟩

lemma restore_ok_loop (L l : LearnerBase) (ck : Dictionary) (version : Nat)
    (hv : validateDictionary ck requiredDictionaryKeys learnerTypeValue = .ok version)
    (h : L.restoreFromCheckpoint ck = .ok l) :
    ∃ ts, restoreAuxLoop version ck 0 (L.parameters.zip L.smoothedGradientValues) = .ok ts := by
  unfold LearnerBase.restoreFromCheckpoint at h
  rw [hv] at h
  simp only [] at h
  split at h
  · cases h
  · split at h
    case _ s heqs =>
      split at h
      case _ mbc heqm =>
        split at h
        · cases h
        case _ L3 heq3 =>
          split at h
          · cases h
          case _ L4 heq4 =>
            split at h
            · cases h
            case _ ts heq5 =>
              obtain ⟨n1, n2⟩ := applyNoiseSeed_ok_arrays _ _ _ heq3
              obtain ⟨s1, s2⟩ := applySchedule_ok_arrays _ _ _ heq4
              rw [s1, s2, n1, n2] at heq5
              exact ⟨ts, heq5⟩
      case _ hne => cases h
    case _ hne => cases h

/-- C5 counterexample: restoring a checkpoint whose second smoothed-gradient
tensor has the wrong shape raises the shape-mismatch error, but the state at
the throw already holds the checkpointed sample count (5, not the prior 10)
and the first restored tensor: the restore is partial, contradicting the
claim that a failing restore leaves the learner unchanged. -/
theorem c5_counterexample_incomplete_restore :
    restoreErrMsg (learnerTwo.restoreFromCheckpoint badShapeCkpt) =
      some shapeMismatchMsg ∧
    (restoreErrState (learnerTwo.restoreFromCheckpoint badShapeCkpt)).map
      LearnerBase.sampleCount = some 5 ∧
    (restoreErrState (learnerTwo.restoreFromCheckpoint badShapeCkpt)).map
      LearnerBase.smoothedGradientValues = some [tFloatB, tFloatA] ∧
    learnerTwo.sampleCount = 10 ∧
    learnerTwo.smoothedGradientValues = [tFloatA, tFloatA] :=
  ⟨rfl, rfl, rfl, rfl, rfl⟩

/-- C5 amended: RestoreFromCheckpoint fails with a consistency error whenever
a required key is missing, and it can succeed only when, for every
parameter position, the checkpointed auxiliary tensor is present and its
element type and shape match the live auxiliary tensor - so a mismatch or a
missing smoothed-gradient entry always fails.  A missing required key is
detected before any mutation and leaves the learner unchanged, but a
mismatch or missing-entry failure is raised mid-restore, after the counters,
seed, schedule and earlier tensors have already been overwritten: the
restore is partial, as the explicit instance in the last conjunct shows. -/
theorem c5_restore_consistency (L : LearnerBase) (ck : Dictionary) :
    (∀ k, k ∈ requiredDictionaryKeys → lookupKey ck k = none →
      ∃ m, L.restoreFromCheckpoint ck = .error (m, L)) ∧
    (∀ l version, L.restoreFromCheckpoint ck = .ok l →
      validateDictionary ck requiredDictionaryKeys learnerTypeValue = .ok version →
      ∀ j pr, (L.parameters.zip L.smoothedGradientValues)[j]? = some pr →
        ∃ t, getSmoothedGradTensor version ck j pr.1 = .ok t ∧
          t.dtype = pr.2.dtype ∧ t.shape = pr.2.shape) ∧
    (∃ m l, learnerTwo.restoreFromCheckpoint badShapeCkpt = .error (m, l) ∧
      l.sampleCount = 5 ∧ learnerTwo.sampleCount = 10) := by
  refine ⟨?_, ?_, ?_⟩
  · intro k hk hnone
    exact restore_error_unchanged_of_missing L ck k hk hnone
  · intro l version hok hv j pr hpr
    obtain ⟨ts, hts⟩ := restore_ok_loop L l ck version hv hok
    have hres := restoreAuxLoop_ok_matches ck version
      (L.parameters.zip L.smoothedGradientValues) 0 ts hts j pr hpr
    simpa using hres
  · exact ⟨shapeMismatchMsg,
      restoreState (learnerTwo.restoreFromCheckpoint badShapeCkpt), rfl, rfl, rfl⟩

/-- Witness for c5_restore_consistency: the missing-required-key conjunct at
the empty checkpoint, and the success characterization on the roundtrip of a
concrete learner. -/
theorem c5_restore_consistency_witness :
    typeKey ∈ requiredDictionaryKeys ∧
    lookupKey ([] : Dictionary) typeKey = none ∧
    (∃ m, learnerOne.restoreFromCheckpoint ([] : Dictionary) = .error (m, learnerOne)) := by
  refine ⟨?_, rfl, ?_⟩
  · simp [requiredDictionaryKeys]
  · exact (c5_restore_consistency learnerOne ([] : Dictionary)).1 typeKey
      (by simp [requiredDictionaryKeys]) rfl

lemma bestEntryAtMost_none_of_gt (t : Nat) :
    ∀ (l : List (Nat × Rate)), (∀ kr ∈ l, t < kr.1) → bestEntryAtMost t l = none := by
  intro l
  induction l with
  | nil => intro _; rfl
  | cons kr rest ih =>
    obtain ⟨k, r⟩ := kr
    intro h
    unfold bestEntryAtMost
    rw [ih (fun x hx => h x (List.mem_cons_of_mem _ hx))]
    rw [if_neg]
    have hk := h (k, r) (List.mem_cons_self _ _)
    simp at hk
    omega

/-- C6: ResetLearningRate rewrites the active schedule so that each
(relative-time, value) entry of the new schedule is stored at key
currentElapsedUnits + relativeTime, where currentElapsedUnits is the current
sweep count when the schedule is sweep-based and the current sample count
otherwise; consequently, replacing at elapsed time t0 with a schedule whose
first entry is at relative time 0 makes valueAt(t0) equal the value of the new
schedule at relative time 0. -/
theorem c6_reset_learning_rate (L : LearnerBase) (ns : Schedule) (v : Rate)
    (rest : List (Nat × Rate))
    (h0 : ns.entries = (0, v) :: rest) (hpos : ∀ kr ∈ rest, 0 < kr.1) :
    (L.resetLearningRate ns).schedule.sweepBased = ns.sweepBased ∧
    (L.resetLearningRate ns).schedule.entries =
      ns.entries.map (fun kv =>
        ((if ns.sweepBased then L.sweepCount else L.sampleCount) + kv.1, kv.2)) ∧
    (L.resetLearningRate ns).schedule.valueAt
      (if ns.sweepBased then L.sweepCount else L.sampleCount) = v := by
  have hsw : (L.resetLearningRate ns).schedule.sweepBased = ns.sweepBased := by
    simp [LearnerBase.resetLearningRate]
  have hent : (L.resetLearningRate ns).schedule.entries =
      ns.entries.map (fun kv =>
        ((if ns.sweepBased then L.sweepCount else L.sampleCount) + kv.1, kv.2)) := by
    simp [LearnerBase.resetLearningRate]
  refine ⟨hsw, hent, ?_⟩
  have hnone : bestEntryAtMost
      (if ns.sweepBased then L.sweepCount else L.sampleCount)
      (rest.map (fun kv =>
        ((if ns.sweepBased then L.sweepCount else L.sampleCount) + kv.1, kv.2))) = none := by
    apply bestEntryAtMost_none_of_gt
    intro kr hkr
    rw [List.mem_map] at hkr
    obtain ⟨ab, hab, hEq⟩ := hkr
    have hpos2 := hpos ab hab
    rw [← hEq]
    simp
    omega
  unfold Schedule.valueAt
  rw [hent, h0]
  simp only [List.map_cons]
  unfold bestEntryAtMost
  rw [hnone]
  simp

/-- Witness for c6_reset_learning_rate at a concrete learner and replacement
schedule. -/
theorem c6_reset_learning_rate_witness :
    replacementSchedule.entries = (0, rateOf 4) :: [(100, rateOf 2)] ∧
    (∀ kr ∈ [((100 : Nat), rateOf 2)], 0 < kr.1) ∧
    (learnerOne.resetLearningRate replacementSchedule).schedule.valueAt
      (if replacementSchedule.sweepBased then learnerOne.sweepCount
       else learnerOne.sampleCount) = rateOf 4 := by
  refine ⟨rfl, by decide, ?_⟩
  exact (c6_reset_learning_rate learnerOne replacementSchedule (rateOf 4)
    [(100, rateOf 2)] rfl (by decide)).2.2

lemma restoreAuxLoop_legacy_ok (ck : Dictionary) :
    ∀ (pairs : List (Parameter × Tensor)) (i : Nat),
      (∀ pr ∈ pairs, ∃ t, lookupKey ck pr.1.uid = some (.tensorVal t) ∧
        t.dtype = pr.2.dtype ∧ t.shape = pr.2.shape) →
      ∃ ts, restoreAuxLoop 1 ck i pairs = .ok ts := by
  intro pairs
  induction pairs with
  | nil => intro i _; exact ⟨[], rfl⟩
  | cons hd rest ih =>
    obtain ⟨p, old⟩ := hd
    intro i h
    obtain ⟨t, hlook, hdt, hsh⟩ := h (p, old) (List.mem_cons_self _ _)
    obtain ⟨ts, hts⟩ := ih (i + 1) (fun pr hpr => h pr (List.mem_cons_of_mem _ hpr))
    refine ⟨t :: ts, ?_⟩
    have hfetch : getSmoothedGradTensor 1 ck i p = .ok t := by
      unfold getSmoothedGradTensor
      rw [if_neg (by norm_num), hlook]
    unfold restoreAuxLoop
    rw [hfetch]
    simp only []
    rw [if_neg (by simp [hdt]), if_neg (by simp [hsh]), hts]

lemma validate_ok_of_lookups (ck : Dictionary) (n : Nat)
    (hver : lookupKey ck versionKey = some (.natVal n))
    (htype : lookupKey ck typeKey = some (.strVal learnerTypeValue))
    (hall : ∀ k ∈ requiredDictionaryKeys, dictContains ck k = true) :
    validateDictionary ck requiredDictionaryKeys learnerTypeValue = .ok n := by
  unfold validateDictionary
  rw [hver]
  simp only []
  rw [if_pos (List.all_eq_true.mpr hall), htype]
  simp

/-- C9: restoring a legacy checkpoint (version < 2) that lacks the
noise-injection-seed key succeeds, with the auxiliary states matched by
parameter unique-id keys instead of positional order, and leaves the noise
seed at its constructor-assigned value instead of failing. -/
theorem c9_legacy_restore (L : LearnerBase) (ck : Dictionary) (s mbc : Nat)
    (sch : Schedule)
    (hver : lookupKey ck versionKey = some (.natVal 1))
    (htype : lookupKey ck typeKey = some (.strVal learnerTypeValue))
    (hs : lookupKey ck sampleCountKey = some (.natVal s))
    (hm : lookupKey ck minibatchCountKey = some (.natVal mbc))
    (hsch : lookupKey ck learningRateScheduleKey = some (.schedVal sch))
    (hnoise : lookupKey ck noiseInjectionSeedKey = none)
    (hhsc : L.hasSmoothedCount = false)
    (hmatch : ∀ pr ∈ L.parameters.zip L.smoothedGradientValues,
      ∃ t, lookupKey ck pr.1.uid = some (.tensorVal t) ∧
        t.dtype = pr.2.dtype ∧ t.shape = pr.2.shape) :
    ∃ l, L.restoreFromCheckpoint ck = .ok l ∧
      l.noiseInjectionSeed = L.noiseInjectionSeed ∧
      l.sampleCount = s ∧ l.minibatchCount = mbc ∧ l.schedule = sch := by
  have hval := validate_ok_of_lookups ck 1 hver htype (by
    intro k hk
    simp [requiredDictionaryKeys] at hk
    rcases hk with rfl | rfl | rfl | rfl <;> simp [dictContains, htype, hs, hm, hsch])
  obtain ⟨ts, hts⟩ :=
    restoreAuxLoop_legacy_ok ck (L.parameters.zip L.smoothedGradientValues) 0 hmatch
  unfold LearnerBase.restoreFromCheckpoint
  rw [hval]
  simp only []
  rw [if_neg (fun hcon => absurd hcon.1 (by norm_num))]
  rw [hs]
  simp only []
  rw [hm]
  simp only []
  unfold applyNoiseSeed
  rw [hnoise]
  simp only []
  unfold applySchedule
  rw [hsch]
  simp only []
  rw [hts]
  simp only []
  unfold applySmoothedCount
  rw [if_neg (by simp [hhsc])]
  exact ⟨_, rfl, rfl, rfl, rfl, rfl⟩

/-- Witness for c9_legacy_restore at a concrete learner and legacy
checkpoint. -/
theorem c9_legacy_restore_witness :
    lookupKey legacyCkpt versionKey = some (.natVal 1) ∧
    lookupKey legacyCkpt noiseInjectionSeedKey = none ∧
    (∃ l, learnerOne.restoreFromCheckpoint legacyCkpt = .ok l ∧
      l.noiseInjectionSeed = learnerOne.noiseInjectionSeed ∧
      l.sampleCount = 2 ∧ l.minibatchCount = 1 ∧ l.schedule = constSchedule 3) := by
  refine ⟨rfl, rfl, ?_⟩
  exact c9_legacy_restore learnerOne legacyCkpt 2 1 (constSchedule 3)
    rfl rfl rfl rfl rfl rfl rfl
    (by
      intro pr hpr
      simp [learnerOne, mkLearner, tFloatA, Tensor.setZero] at hpr
      refine ⟨tFloatB, ?_, ?_, ?_⟩ <;> rw [hpr] <;> rfl)

lemma validateInputLoop_error_of_mem (inputs : List String) :
    ∀ (pairs : List (String × String)) (p g : String),
      (p, g) ∈ pairs → p ∉ inputs →
      ∃ m, validateInputLoop inputs pairs = .error m := by
  intro pairs
  induction pairs with
  | nil => intro p g hmem _; simp at hmem
  | cons hd rest ih =>
    obtain ⟨a, b⟩ := hd
    intro p g hmem hp
    by_cases ha : a ∈ inputs
    · rcases List.mem_cons.mp hmem with heq | hmem2
      · cases heq; exact absurd ha hp
      · obtain ⟨m, hm⟩ := ih p g hmem2 hp
        refine ⟨m, ?_⟩
        unfold validateInputLoop
        rw [if_pos ha, hm]
    · refine ⟨paramNotInInputsMsg, ?_⟩
      unfold validateInputLoop
      rw [if_neg ha]

lemma validateInputLoop_ok_of_all (inputs : List String) :
    ∀ (pairs : List (String × String)),
      (∀ pr ∈ pairs, pr.1 ∈ inputs) →
      ∃ ws, validateInputLoop inputs pairs = .ok (pairs, ws) := by
  intro pairs
  induction pairs with
  | nil => exact fun _ => ⟨[], rfl⟩
  | cons hd rest ih =>
    obtain ⟨a, b⟩ := hd
    intro h
    obtain ⟨ws, hws⟩ := ih (fun pr hpr => h pr (List.mem_cons_of_mem _ hpr))
    refine ⟨(if b ∈ inputs then [] else [gradWarningMsg]) ++ ws, ?_⟩
    unfold validateInputLoop
    rw [if_pos (h (a, b) (List.mem_cons_self _ _)), hws]

lemma exists_zip_snd_of_mem {α β : Type} (a : α) :
    ∀ (l1 : List α) (l2 : List β), a ∈ l1 → l1.length = l2.length →
      ∃ b, (a, b) ∈ l1.zip l2 := by
  intro l1
  induction l1 with
  | nil => intro l2 hmem _; simp at hmem
  | cons x xs ih =>
    intro l2 hmem hlen
    cases l2 with
    | nil => simp at hlen
    | cons y ys =>
      rcases List.mem_cons.mp hmem with heq | hmem2
      · exact ⟨y, by rw [heq]; exact List.mem_cons_self _ _⟩
      · obtain ⟨b, hb⟩ := ih ys hmem2 (by simpa using hlen)
        exact ⟨b, List.mem_cons_of_mem _ hb⟩

/-- C10: constructing the universal learner fails with a fatal configuration
error when the parameter and gradient lists differ in length or are empty,
and when some parameter does not appear among the declared
inputs of the update expression; a gradient placeholder missing from the inputs only
produces a non-fatal warning and validation still succeeds, returning the
full parameter-to-gradient pairing. -/
theorem c10_validate_input (parameters gradients : List String) (f : UpdateFunc) :
    (parameters.length ≠ gradients.length →
      ∃ m, LearnerUniversal.validateInput parameters gradients f = .error m) ∧
    (parameters = [] →
      ∃ m, LearnerUniversal.validateInput parameters gradients f = .error m) ∧
    (parameters.length = gradients.length →
      ∀ p, p ∈ parameters → p ∉ f.inputs →
        ∃ m, LearnerUniversal.validateInput parameters gradients f = .error m) ∧
    (parameters.length = gradients.length → parameters ≠ [] →
      (∀ p ∈ parameters, p ∈ f.inputs) →
      ∃ ws, LearnerUniversal.validateInput parameters gradients f =
        .ok (parameters.zip gradients, ws)) := by
  refine ⟨?_, ?_, ?_, ?_⟩
  · intro hne
    refine ⟨countMismatchMsg, ?_⟩
    unfold LearnerUniversal.validateInput
    rw [if_pos hne]
  · intro hnil
    unfold LearnerUniversal.validateInput
    by_cases hlen : parameters.length ≠ gradients.length
    · rw [if_pos hlen]; exact ⟨countMismatchMsg, rfl⟩
    · rw [if_neg hlen, if_pos (by rw [hnil]; rfl)]
      exact ⟨noParametersMsg, rfl⟩
  · intro hlen p hmem hnotin
    obtain ⟨g, hg⟩ := exists_zip_snd_of_mem p parameters gradients hmem hlen
    obtain ⟨m, hm⟩ := validateInputLoop_error_of_mem f.inputs
      (parameters.zip gradients) p g hg hnotin
    refine ⟨m, ?_⟩
    unfold LearnerUniversal.validateInput
    rw [if_neg (by rw [hlen]; exact fun h => h rfl)]
    rw [if_neg (by
      intro h0
      rw [List.length_eq_zero] at h0
      rw [h0] at hmem
      simp at hmem), hm]
  · intro hlen hne hall
    obtain ⟨ws, hws⟩ := validateInputLoop_ok_of_all f.inputs (parameters.zip gradients)
      (fun pr hpr => hall pr.1 (List.of_mem_zip hpr).1)
    refine ⟨ws, ?_⟩
    unfold LearnerUniversal.validateInput
    rw [if_neg (by rw [hlen]; exact fun h => h rfl)]
    rw [if_neg (fun h0 => hne (List.length_eq_zero.mp h0)), hws]

/-- Witness for c10_validate_input at a concrete parameter list whose
gradient placeholder is absent from the expression inputs. -/
theorem c10_validate_input_witness :
    (["W0"] : List String).length = (["G0"] : List String).length ∧
    (["W0"] : List String) ≠ [] ∧
    (∀ p ∈ (["W0"] : List String), p ∈ (["W0", "X"] : List String)) ∧
    (∃ ws, LearnerUniversal.validateInput ["W0"] ["G0"] { inputs := ["W0", "X"] } =
      .ok ([("W0", "G0")], ws)) := by
  refine ⟨rfl, by simp, by simp, ?_⟩
  exact (c10_validate_input ["W0"] ["G0"] { inputs := ["W0", "X"] }).2.2.2
    rfl (by simp) (by simp)

/-- C8: with an unbounded (infinite) clipping threshold the gradient is
unchanged; with a finite per-sample threshold the per-minibatch bound is
threshold times sampleCount; in truncation mode the magnitude of every element is
clamped to that bound and elements already within the bound are untouched;
otherwise the whole tensor is rescaled by bound over norm exactly when its
Frobenius norm exceeds the bound, and is unchanged when the norm is within
the bound. -/
theorem c8_clip_gradient (thr : ℝ) (mb : Nat) (g : List ℝ) (tr : Bool) :
    (clipGradient ⟨none, tr⟩ mb g = g) ∧
    (clipGradient ⟨some thr, true⟩ mb g =
      g.map (fun x => max (-(thr * (mb : ℝ))) (min (thr * (mb : ℝ)) x))) ∧
    (0 ≤ thr → ∀ y ∈ clipGradient ⟨some thr, true⟩ mb g,
      |y| ≤ thr * (mb : ℝ)) ∧
    (∀ x ∈ g, |x| ≤ thr * (mb : ℝ) →
      max (-(thr * (mb : ℝ))) (min (thr * (mb : ℝ)) x) = x) ∧
    (thr * (mb : ℝ) < frobeniusNorm g →
      clipGradient ⟨some thr, false⟩ mb g =
        g.map (fun x => ((thr * (mb : ℝ)) / frobeniusNorm g) * x)) ∧
    (frobeniusNorm g ≤ thr * (mb : ℝ) →
      clipGradient ⟨some thr, false⟩ mb g = g) := by
  refine ⟨rfl, rfl, ?_, ?_, ?_, ?_⟩
  · intro hthr y hy
    have hb : (0:ℝ) ≤ thr * (mb : ℝ) := mul_nonneg hthr (Nat.cast_nonneg mb)
    have hmem : y ∈ g.map (fun x =>
        max (-(thr * (mb : ℝ))) (min (thr * (mb : ℝ)) x)) := hy
    rw [List.mem_map] at hmem
    obtain ⟨x, hx, hxe⟩ := hmem
    rw [← hxe, abs_le]
    refine ⟨le_max_left _ _, max_le (by linarith) (min_le_left _ _)⟩
  · intro x hx habs
    rw [abs_le] at habs
    rw [min_eq_right habs.2]
    exact max_eq_right habs.1
  · intro hlt
    show (if thr * (mb : ℝ) < frobeniusNorm g then
        g.map (fun x => ((thr * (mb : ℝ)) / frobeniusNorm g) * x) else g) =
      g.map (fun x => ((thr * (mb : ℝ)) / frobeniusNorm g) * x)
    rw [if_pos hlt]
  · intro hle
    show (if thr * (mb : ℝ) < frobeniusNorm g then
        g.map (fun x => ((thr * (mb : ℝ)) / frobeniusNorm g) * x) else g) = g
    rw [if_neg (not_lt.mpr hle)]

/-- Witness for c8_clip_gradient: clipping the gradient (6, 8), whose norm is
10, with per-sample threshold 1 over a five-sample minibatch rescales it to
(3, 4) in norm mode and clamps it to (5, 5) in truncation mode. -/
theorem c8_clip_gradient_witness :
    frobeniusNorm [(6:ℝ), 8] = 10 ∧
    clipGradient ⟨some 1, false⟩ 5 [(6:ℝ), 8] = [3, 4] ∧
    clipGradient ⟨some 1, true⟩ 5 [(6:ℝ), 8] = [5, 5] := by
  have hnorm : frobeniusNorm [(6:ℝ), 8] = 10 := by
    unfold frobeniusNorm
    rw [show (([(6:ℝ), 8].map (fun x => x * x)).sum) = 10 ^ 2 by norm_num]
    exact Real.sqrt_sq (by norm_num)
  refine ⟨hnorm, ?_, ?_⟩
  · have happ := (c8_clip_gradient 1 5 [(6:ℝ), 8] false).2.2.2.2.1
      (by rw [hnorm]; norm_num)
    rw [happ, hnorm]
    norm_num
  · have happ := (c8_clip_gradient 1 5 [(6:ℝ), 8] false).2.1
    rw [happ]
    norm_num
